/-
Verification of the fitness-dashboard activity pipeline.

The definitions below are shallow embeddings of the TypeScript source:
  - src/backend/src/index.ts                       (predictions endpoint, category stats)
  - src/backend/src/services/aiAnalysisService.ts  (sync/merge, classifiers, stats)
  - the file-parser service (FIT/GPX decoding and normalization)
  - the frontend elevation helper (getElevationMeters)

Conventions used throughout:
  - JavaScript numbers are modelled as rationals; fields that the code reads
    with a `|| 0` fallback are plain rationals with 0 standing for "absent",
    fields where undefined-vs-present matters are `Option` valued.
  - `x || y` on numbers is `jsOrQ`, on optional numbers `jsOrOptQ`, on strings
    `jsOrStr` (empty string and 0 are falsy).
  - `Math.round` is `jsRound` (round half toward positive infinity).
  - Floating-point-only operations (Math.pow with exponent 1.06, Math.sqrt,
    the haversine trigonometry) are abstracted as function parameters; the
    surrounding control flow is embedded exactly.
  - Mongo collections are lists in natural order; `findOne` is `List.find?`,
    a single-document update rewrites the first matching element.
-/
import Mathlib

/-- JavaScript `Math.round`: round half toward positive infinity. -/
def jsRound (x : ℚ) : ℤ := ⌊x + 1/2⌋

/-- JavaScript `a || b` on numbers where 0 denotes an absent/zero value. -/
def jsOrQ (a b : ℚ) : ℚ := if a = 0 then b else a

/-- JavaScript truthiness of an optional number: present and nonzero. -/
def jsTruthyQ : Option ℚ → Bool
  | none => false
  | some v => decide (v ≠ 0)

/-- JavaScript `a || b` on optional numbers (undefined and 0 are falsy). -/
def jsOrOptQ (a b : Option ℚ) : Option ℚ := if jsTruthyQ a then a else b

/-- JavaScript `a || b` where `a` is an optional string and `b` a string. -/
def jsOrStr (a : Option String) (b : String) : String :=
  match a with
  | some s => if s = "" then b else s
  | none => b

/-- JavaScript `a || b` on two optional strings. -/
def jsOrOptStr (a b : Option String) : Option String :=
  match a with
  | some s => if s = "" then b else some s
  | none => b

/-- JavaScript `v || null` on an optional number: 0 collapses to null. -/
def jsOrNullQ : Option ℚ → Option ℚ
  | none => none
  | some v => if v = 0 then none else some v

/-- Maximum of a list of rationals (the lists it is applied to are nonempty). -/
def listMax : List ℚ → ℚ
  | [] => 0
  | [x] => x
  | x :: y :: ys => max x (listMax (y :: ys))

/-- Minimum of a list of rationals (the lists it is applied to are nonempty). -/
def listMin : List ℚ → ℚ
  | [] => 0
  | [x] => x
  | x :: y :: ys => min x (listMin (y :: ys))

/-- Maximum of a list of integers, used for `Math.max(...hrValues)`. -/
def listMaxZ : List ℤ → ℤ
  | [] => 0
  | [x] => x
  | x :: y :: ys => max x (listMaxZ (y :: ys))

/-- ASCII lowercase of one character (the embedding of `toLowerCase` for the
ASCII pattern alphabet the classifiers use). -/
def lowerChar (c : Char) : Char :=
  if 'A' ≤ c ∧ c ≤ 'Z' then Char.ofNat (c.toNat + 32) else c

/-- ASCII lowercase of a string. -/
def lowerStr (s : String) : String := String.mk (s.data.map lowerChar)

/-- Rewrite the first element satisfying `p` by `f`; models a single-document
Mongo update (`findOneAndUpdate` / `findByIdAndUpdate`). -/
def replaceFirst {α : Type} (p : α → Bool) (f : α → α) : List α → List α
  | [] => []
  | x :: xs => if p x then f x :: xs else x :: replaceFirst p f xs

/- ### Race-time prediction endpoint (GET /api/stats/predictions, index.ts) -/

/-- One entry of the `predictions` record: a time in seconds and a provenance
tag (`"PR"`, `"5K PR"`, `"10K PR"`, `"HM PR"`). -/
structure RacePrediction where
  time : ℚ
  basedOn : String
deriving DecidableEq

/-- The four target distances of the predictions table. -/
structure PredictionTable where
  p5K : Option RacePrediction
  p10K : Option RacePrediction
  pHalf : Option RacePrediction
  pMarathon : Option RacePrediction
deriving DecidableEq

def emptyPredictions : PredictionTable := ⟨none, none, none, none⟩

/-- Riegel extrapolation `time * Math.pow(dist2 / dist1, 1.06)`; `pow106`
abstracts the floating-point `Math.pow(·, 1.06)`. -/
def riegel (pow106 : ℚ → ℚ) (time dist1 dist2 : ℚ) : ℚ :=
  time * pow106 (dist2 / dist1)

/-- The `if (best5K) { ... }` block: a 5K personal best fills all four
predictions (5K as a PR, the rest by Riegel extrapolation). -/
def applyBest5K (pow106 : ℚ → ℚ) (best5K : Option ℚ) (p : PredictionTable) :
    PredictionTable :=
  match best5K with
  | none => p
  | some t =>
    if t = 0 then p
    else
      { p with
        p5K := some ⟨t, "PR"⟩
        p10K := some ⟨(jsRound (riegel pow106 t 5 10) : ℚ), "5K PR"⟩
        pHalf := some ⟨(jsRound (riegel pow106 t 5 21.0975) : ℚ), "5K PR"⟩
        pMarathon := some ⟨(jsRound (riegel pow106 t 5 42.195) : ℚ), "5K PR"⟩ }

/-- The guarded assignment pattern of the endpoint,
`if (!predictions[k] || candidate.time < predictions[k].time) predictions[k] = candidate`:
the candidate takes the slot only when it is empty or the candidate is
numerically smaller. -/
def upsertSlot (candidate : RacePrediction) (slot : Option RacePrediction) :
    Option RacePrediction :=
  match slot with
  | none => some candidate
  | some pr => if candidate.time < pr.time then some candidate else some pr

/-- The `if (best10K) { ... }` block: the 10K PR competes for the 10K slot,
then the 10K-based extrapolations compete for the Half-Marathon and Marathon
slots. The source performs the three guarded assignments in sequence; they
touch three distinct keys, so the simultaneous record update is identical. -/
def applyBest10K (pow106 : ℚ → ℚ) (best10K : Option ℚ) (p : PredictionTable) :
    PredictionTable :=
  match best10K with
  | none => p
  | some t =>
    if t = 0 then p
    else
      let hmFrom10K : ℚ := (jsRound (riegel pow106 t 10 21.0975) : ℚ)
      let mFrom10K : ℚ := (jsRound (riegel pow106 t 10 42.195) : ℚ)
      { p with
        p10K := upsertSlot ⟨t, "PR"⟩ p.p10K
        pHalf := upsertSlot ⟨hmFrom10K, "10K PR"⟩ p.pHalf
        pMarathon := upsertSlot ⟨mFrom10K, "10K PR"⟩ p.pMarathon }

/-- The `if (bestHalf) { ... }` block: the Half-Marathon PR competes for its
slot, and its Marathon extrapolation for the Marathon slot (two guarded
assignments to distinct keys, again written as one record update). -/
def applyBestHalf (pow106 : ℚ → ℚ) (bestHalf : Option ℚ) (p : PredictionTable) :
    PredictionTable :=
  match bestHalf with
  | none => p
  | some t =>
    if t = 0 then p
    else
      let mFromHalf : ℚ := (jsRound (riegel pow106 t 21.0975 42.195) : ℚ)
      { p with
        pHalf := upsertSlot ⟨t, "PR"⟩ p.pHalf
        pMarathon := upsertSlot ⟨mFromHalf, "HM PR"⟩ p.pMarathon }

/-- The whole prediction-filling pass of the endpoint, given the scanned
personal bests for 5K, 10K and Half-Marathon. -/
def buildPredictions (pow106 : ℚ → ℚ) (best5K best10K bestHalf : Option ℚ) :
    PredictionTable :=
  applyBestHalf pow106 bestHalf (applyBest10K pow106 best10K (applyBest5K pow106 best5K emptyPredictions))

/-- A rational stand-in for `Math.pow(x, 1.06)` at the five ratios the endpoint
evaluates, accurate to about 1e-5 (2^1.06 is about 2.0849331); used to
instantiate counterexamples with realistic extrapolation values. -/
def pow106Approx (x : ℚ) : ℚ :=
  if x = 10 / 5 then 2084933 / 1000000
  else if x = 21.0975 / 5 then 4604855 / 1000000
  else if x = 42.195 / 5 then 9601315 / 1000000
  else if x = 21.0975 / 10 then 2209040 / 1000000
  else if x = 42.195 / 10 then 4606259 / 1000000
  else if x = 42.195 / 21.0975 then 2084933 / 1000000
  else 1

/- ### Free-text pattern matching for the workout classifiers -/

/-- Does the needle occur at the front of the haystack (character lists)? -/
def seqAt : List Char → List Char → Bool
  | [], _ => true
  | _ :: _, [] => false
  | c :: cs, h :: hs => c == h && seqAt cs hs

/-- Does the needle occur anywhere in the haystack (character lists)? -/
def containsSeq (needle : List Char) : List Char → Bool
  | [] => seqAt needle []
  | h :: hs => seqAt needle (h :: hs) || containsSeq needle hs

/-- Substring test `hasSub hay pat`: does `pat` occur in `hay`? -/
def hasSub (hay pat : String) : Bool := containsSeq pat.toList hay.toList

/-- Scan for the regex alternative `\dx`: a digit immediately followed by x. -/
def digitXScan : List Char → Bool
  | [] => false
  | [_] => false
  | a :: b :: rest => (a.isDigit && b == 'x') || digitXScan (b :: rest)

/-- Scan for the regex alternative `x\d+`: an x immediately followed by a digit. -/
def xDigitScan : List Char → Bool
  | [] => false
  | [_] => false
  | a :: b :: rest => (a == 'x' && b.isDigit) || xDigitScan (b :: rest)

/-- Scan for the regex `lt\s`: the letters l t followed by a whitespace. -/
def ltSpaceScan : List Char → Bool
  | a :: b :: c :: rest => (a == 'l' && b == 't' && c.isWhitespace) || ltSpaceScan (b :: c :: rest)
  | _ => false

/- Matchers of `classifyWorkout` (name + description text, lowercased).
The pattern `long\s*(slow)?\s*(run|distance)?` reduces to the substring
"long" because every group after it is optional. -/

def matchIntervalsFull (t : String) : Bool :=
  hasSub t "interval" || hasSub t "series" || hasSub t "repeat" ||
    xDigitScan t.toList || digitXScan t.toList

def matchTempoFull (t : String) : Bool :=
  hasSub t "tempo" || hasSub t "threshold" || ltSpaceScan t.toList || hasSub t "umbral"

def matchLongFull (t : String) : Bool :=
  hasSub t "lsd" || hasSub t "long" || hasSub t "tirada"

def matchEasyFull (t : String) : Bool :=
  hasSub t "easy" || hasSub t "fácil" || hasSub t "facil" ||
    hasSub t "recovery" || hasSub t "recuper"

def matchRaceFull (t : String) : Bool :=
  hasSub t "race" || hasSub t "carrera" || hasSub t "competencia" ||
    hasSub t "pk" || hasSub t "parkrun"

def matchFartlek (t : String) : Bool := hasSub t "fartlek"

def matchHills (t : String) : Bool :=
  hasSub t "hill" || hasSub t "cuesta" || hasSub t "subida"

def matchStrides (t : String) : Bool := hasSub t "stride" || hasSub t "progres"

/- Matchers of `classifyWorkoutBasic` (name only, lowercased). -/

def matchIntervalsBasic (t : String) : Bool :=
  hasSub t "interval" || hasSub t "series" || hasSub t "repeat"

def matchTempoBasic (t : String) : Bool := hasSub t "tempo" || hasSub t "threshold"

def matchLongBasic (t : String) : Bool := hasSub t "lsd" || hasSub t "long"

def matchEasyBasic (t : String) : Bool :=
  hasSub t "easy" || hasSub t "recovery" || hasSub t "recuper"

def matchRaceBasic (t : String) : Bool := hasSub t "race" || hasSub t "carrera"

/- ### Strava-side record shapes (aiAnalysisService.ts) -/

/-- A lap as mapped from the Strava detailed-activity payload. -/
structure LapRec where
  lap_index : ℤ
  distance : ℚ
  elapsed_time : ℚ
  moving_time : ℚ
  average_speed : ℚ
  max_speed : ℚ
  average_heartrate : ℚ
  max_heartrate : ℚ
  average_cadence : ℚ
  average_watts : ℚ
  total_elevation_gain : ℚ
  pace_zone : ℤ
deriving DecidableEq

/-- A metric split as mapped from the Strava detailed-activity payload. -/
structure SplitRec where
  split : ℤ
  distance : ℚ
  elapsed_time : ℚ
  moving_time : ℚ
  average_speed : ℚ
  average_heartrate : ℚ
  elevation_difference : ℚ
  pace_zone : ℤ
deriving DecidableEq

/-- A best-effort fragment as mapped from the Strava detailed payload. -/
structure EffortRec where
  name : String
  distance : ℚ
  elapsed_time : ℚ
  moving_time : ℚ
  pr_rank : Option ℤ
deriving DecidableEq

/-- Gear metadata copied from the Strava detailed payload. -/
structure GearRec where
  id : String
  name : String
  nickname : String
  distance : ℚ
deriving DecidableEq

/-- Map polylines from the Strava detailed payload. -/
structure MapRec where
  polyline : Option String
  summaryPolyline : Option String
deriving DecidableEq

/-- Result of `analyzeWorkout`: the auxiliary variance analysis. The five pace
fields are absent on the abstaining `{ type: 'unknown', confidence: 0 }`. -/
structure WorkoutAnalysis where
  type : String
  confidence : ℚ
  fastestLapPace : Option ℚ
  slowestLapPace : Option ℚ
  paceVariation : Option ℚ
  avgFastPace : Option ℚ
  avgSlowPace : Option ℚ
deriving DecidableEq

/-- A summary activity from the Strava list endpoint. -/
structure StravaSummary where
  id : ℤ
  type : String
  name : String
  start_date : ℤ
  moving_time : ℚ
  elapsed_time : ℚ
  distance : ℚ
  total_elevation_gain : ℚ
  average_speed : Option ℚ
  max_speed : Option ℚ
  average_heartrate : Option ℚ
  max_heartrate : Option ℚ
  kilojoules : Option ℚ
deriving DecidableEq

/-- A detailed activity from the Strava per-activity endpoint (only present
when the detail fetch succeeded and returned an id). -/
structure StravaDetail where
  name : String
  description : String
  sport_type : Option String
  timezone : Option String
  distance : ℚ
  total_elevation_gain : ℚ
  average_speed : Option ℚ
  max_speed : Option ℚ
  average_heartrate : Option ℚ
  max_heartrate : Option ℚ
  average_cadence : Option ℚ
  average_watts : Option ℚ
  max_watts : Option ℚ
  weighted_average_watts : Option ℚ
  calories : Option ℚ
  suffer_score : Option ℚ
  elev_high : Option ℚ
  elev_low : Option ℚ
  device_name : Option String
  gear : Option GearRec
  map : Option MapRec
  laps : List LapRec
  splits_metric : List SplitRec
  best_efforts : List EffortRec
deriving DecidableEq

/- ### Workout classifiers (aiAnalysisService.ts) -/

/-- The text tier of `classifyWorkoutBasic`: the ordered regex chain over the
lowercased activity name. -/
def classifyWorkoutBasic (activity : StravaSummary) : String :=
  let name := lowerStr activity.name
  if matchIntervalsBasic name then "intervals"
  else if matchTempoBasic name then "tempo"
  else if matchLongBasic name then "long_run"
  else if matchEasyBasic name then "easy"
  else if matchRaceBasic name then "race"
  else if matchFartlek name then "fartlek"
  else if matchStrides name then "easy_strides"
  else "general"

/-- The lap-variance fallback of `classifyWorkout`: `some` when one of the two
early returns inside the `if (activity.laps ...)` block fires. -/
def lapVarianceTier (activity : StravaDetail) : Option String :=
  if 1 < activity.laps.length then
    let paces := (activity.laps.filter (fun lap => decide (200 < lap.distance))).map
      (fun lap => lap.average_speed)
    if 2 ≤ paces.length then
      let maxPace := listMax paces
      let minPace := listMin paces
      let variation := ((maxPace - minPace) / minPace) * 100
      if 15 < variation then some "intervals"
      else if 8 < variation then some "tempo"
      else none
    else none
  else none

/-- The gross distance/heart-rate thresholds `classifyWorkout` falls back to. -/
def grossThresholds (activity : StravaDetail) : String :=
  let distance := activity.distance
  let avgHR := (activity.average_heartrate).getD 0
  if 15000 < distance then "long_run"
  else if distance < 8000 ∧ avgHR < 140 then "easy"
  else "general"

/-- `classifyWorkout`: ordered text-pattern tier over name+description, then
the lap-variance tier, then the gross thresholds. -/
def classifyWorkout (activity : StravaDetail) : String :=
  let name := lowerStr activity.name
  let description := lowerStr activity.description
  let text := name ++ " " ++ description
  if matchIntervalsFull text then "intervals"
  else if matchTempoFull text then "tempo"
  else if matchLongFull text then "long_run"
  else if matchEasyFull text then "easy"
  else if matchRaceFull text then "race"
  else if matchFartlek text then "fartlek"
  else if matchHills text then "hills"
  else if matchStrides text then "easy_strides"
  else
    match lapVarianceTier activity with
    | some tag => tag
    | none => grossThresholds activity

/-- `analyzeWorkout`: confidence-scored lap-variance analysis. `sqrtQ`
abstracts the floating-point `Math.sqrt` used for the pace deviation. -/
def analyzeWorkout (sqrtQ : ℚ → ℚ) (activity : StravaDetail) : WorkoutAnalysis :=
  let laps := activity.laps
  if laps.length < 2 then ⟨"unknown", 0, none, none, none, none, none⟩
  else
    let significantLaps := laps.filter (fun lap => decide (200 < lap.distance))
    if significantLaps.length < 2 then ⟨"unknown", 0, none, none, none, none, none⟩
    else
      let paces := (significantLaps.map (fun lap =>
        if 0 < lap.distance ∧ 0 < lap.moving_time then
          (lap.moving_time / 60) / (lap.distance / 1000)
        else 0)).filter (fun p => decide (0 < p))
      if paces.length < 2 then ⟨"unknown", 0, none, none, none, none, none⟩
      else
        let fastestLapPace := listMin paces
        let slowestLapPace := listMax paces
        let avgPace := paces.sum / (paces.length : ℚ)
        let variance := (paces.map (fun p => (p - avgPace) ^ 2)).sum / (paces.length : ℚ)
        let paceVariation := sqrtQ variance
        let fastLaps := paces.filter (fun p => decide (p < avgPace))
        let slowLaps := paces.filter (fun p => decide (avgPace ≤ p))
        let avgFastPace := if 0 < fastLaps.length then fastLaps.sum / (fastLaps.length : ℚ) else 0
        let avgSlowPace := if 0 < slowLaps.length then slowLaps.sum / (slowLaps.length : ℚ) else 0
        let paceDiff := slowestLapPace - fastestLapPace
        if 3/2 < paceDiff then
          ⟨"intervals", min 95 (60 + paceDiff * 10), some fastestLapPace, some slowestLapPace,
            some paceVariation, some avgFastPace, some avgSlowPace⟩
        else if 1/2 < paceDiff then
          ⟨"tempo", 70, some fastestLapPace, some slowestLapPace,
            some paceVariation, some avgFastPace, some avgSlowPace⟩
        else
          ⟨if 6 < avgPace then "easy" else "tempo", 80, some fastestLapPace, some slowestLapPace,
            some paceVariation, some avgFastPace, some avgSlowPace⟩

/-- `categorizeActivity`: canonical category plus running sub-type from the
Strava type string and the optional detailed payload. -/
def categorizeActivity (stravaType : String) (detailed : Option StravaDetail) :
    String × Option String :=
  let cardioRunningTypes := ["Run", "VirtualRun", "TrailRun", "Treadmill"]
  let cyclingTypes := ["Ride", "VirtualRide", "MountainBikeRide", "GravelRide", "EBikeRide"]
  let strengthTypes := ["WeightTraining", "Crossfit", "Workout"]
  let swimTypes := ["Swim", "OpenWaterSwim"]
  let walkTypes := ["Walk", "Hike"]
  if cardioRunningTypes.contains stravaType then
    let subType :=
      if stravaType = "Treadmill" then some "treadmill"
      else if stravaType = "TrailRun" then some "trail"
      else if stravaType = "VirtualRun" then some "virtual"
      else
        match detailed with
        | some dd =>
          let hasMap :=
            match dd.map with
            | some m =>
              match m.summaryPolyline with
              | some sp => decide (sp ≠ "") && decide (50 < sp.length)
              | none => false
            | none => false
          let hasElevation := decide (10 < dd.total_elevation_gain)
          if !hasMap && !hasElevation then some "treadmill"
          else if dd.sport_type = some "TrailRun" then some "trail"
          else some "outdoor"
        | none => some "outdoor"
    ("cardio_running", subType)
  else if cyclingTypes.contains stravaType then ("cardio_cycling", none)
  else if strengthTypes.contains stravaType then ("strength", none)
  else if swimTypes.contains stravaType then ("cardio_swimming", none)
  else if walkTypes.contains stravaType then ("cardio_walking", none)
  else ("other", none)

/- ### The canonical stored Activity and the sync/merge step -/

/-- A FIT time-series record as stored on a canonical Activity (relevant here
only as sensor data the merge must leave untouched). -/
structure FitRecordOut where
  timestamp : Option ℤ
  elapsedTime : ℚ
  distance : ℚ
  speed : ℚ
  heartRate : ℚ
  cadence : ℚ
  temperature : ℚ
  power : ℚ
  verticalOscillation : ℚ
  verticalRatioPct : ℚ
  stepLength : ℚ
  altitude : ℚ
  lat : Option ℚ
  lng : Option ℚ
deriving DecidableEq

/-- The stored canonical Activity document (fields the sync and merge code
reads or writes, plus FIT-only sensor fields the merge must preserve). -/
structure StoredActivity where
  internalId : ℕ
  stravaId : Option ℤ
  activityType : String
  activityCategory : String
  runningSubType : Option String
  workoutType : String
  sportType : String
  name : String
  description : String
  startTime : ℤ
  timezone : Option String
  duration : ℚ
  elapsedTime : ℚ
  distance : ℚ
  elevationGain : ℚ
  elevHigh : Option ℚ
  elevLow : Option ℚ
  averagePace : ℚ
  averageSpeed : Option ℚ
  maxSpeed : Option ℚ
  averageHR : Option ℚ
  maxHR : Option ℚ
  averageCadence : Option ℚ
  averageWatts : Option ℚ
  maxWatts : Option ℚ
  weightedAverageWatts : Option ℚ
  calories : ℚ
  sufferScore : Option ℚ
  gear : Option GearRec
  deviceName : Option String
  map : Option MapRec
  laps : List LapRec
  splitsMetric : List SplitRec
  bestEfforts : List EffortRec
  workoutAnalysis : Option WorkoutAnalysis
  records : List FitRecordOut
  avgCadence : ℚ
  maxCadence : ℚ
  avgPower : ℚ
  source : String
  hasDetailedData : Bool
  updatedAt : ℤ
deriving DecidableEq

/-- The document the sync loop assembles for an incoming Strava activity
(`stravaData`, aiAnalysisService.ts lines 836-925). `d` is the detailed
payload when the detail fetch succeeded (`hasDetailedData`). -/
structure StravaDoc where
  stravaId : ℤ
  activityType : String
  activityCategory : String
  runningSubType : Option String
  workoutType : String
  sportType : String
  name : String
  description : String
  startTime : ℤ
  timezone : Option String
  duration : ℚ
  elapsedTime : ℚ
  distance : ℚ
  elevationGain : ℚ
  elevHigh : Option ℚ
  elevLow : Option ℚ
  averagePace : ℚ
  averageSpeed : Option ℚ
  maxSpeed : Option ℚ
  averageHR : Option ℚ
  maxHR : Option ℚ
  averageCadence : Option ℚ
  averageWatts : Option ℚ
  maxWatts : Option ℚ
  weightedAverageWatts : Option ℚ
  calories : ℚ
  sufferScore : Option ℚ
  gear : Option GearRec
  deviceName : Option String
  map : Option MapRec
  laps : List LapRec
  splitsMetric : List SplitRec
  bestEfforts : List EffortRec
  workoutAnalysis : Option WorkoutAnalysis
  source : String
  hasDetailedData : Bool
  updatedAt : ℤ
deriving DecidableEq

/-- Assembles `stravaData` from the summary `b` and the optional detail `d`. -/
def mkStravaData (sqrtQ : ℚ → ℚ) (b : StravaSummary) (d : Option StravaDetail)
    (now : ℤ) : StravaDoc :=
  let hasDetailedData := d.isSome
  let workoutType :=
    match d with
    | some dd => classifyWorkout dd
    | none => classifyWorkoutBasic b
  let workoutAnalysis :=
    match d with
    | some dd => some (analyzeWorkout sqrtQ dd)
    | none => none
  let cat := categorizeActivity b.type d
  { stravaId := b.id
    activityType := b.type
    activityCategory := cat.1
    runningSubType := cat.2
    workoutType := workoutType
    sportType := jsOrStr (d.bind (fun dd => dd.sport_type)) b.type
    name :=
      match d with
      | some dd => if dd.name = "" then b.name else dd.name
      | none => b.name
    description :=
      match d with
      | some dd => dd.description
      | none => ""
    startTime := b.start_date
    timezone := d.bind (fun dd => dd.timezone)
    duration := b.moving_time
    elapsedTime := b.elapsed_time
    distance := b.distance
    elevationGain := b.total_elevation_gain
    elevHigh := d.bind (fun dd => dd.elev_high)
    elevLow := d.bind (fun dd => dd.elev_low)
    averagePace :=
      if 0 < b.distance then (b.moving_time / 60) / (b.distance / 1000) else 0
    averageSpeed := jsOrOptQ (d.bind (fun dd => dd.average_speed)) b.average_speed
    maxSpeed := jsOrOptQ (d.bind (fun dd => dd.max_speed)) b.max_speed
    averageHR := jsOrOptQ (d.bind (fun dd => dd.average_heartrate)) b.average_heartrate
    maxHR := jsOrOptQ (d.bind (fun dd => dd.max_heartrate)) b.max_heartrate
    averageCadence := d.bind (fun dd => dd.average_cadence)
    averageWatts := d.bind (fun dd => dd.average_watts)
    maxWatts := d.bind (fun dd => dd.max_watts)
    weightedAverageWatts := d.bind (fun dd => dd.weighted_average_watts)
    calories := (jsOrOptQ (d.bind (fun dd => dd.calories)) b.kilojoules).getD 0
    sufferScore := d.bind (fun dd => dd.suffer_score)
    gear := (d.bind (fun dd => dd.gear)).map (fun g =>
      { id := g.id, name := g.name, nickname := g.nickname, distance := g.distance })
    deviceName := d.bind (fun dd => dd.device_name)
    map := (d.bind (fun dd => dd.map)).map (fun m =>
      { polyline := m.polyline, summaryPolyline := m.summaryPolyline })
    laps :=
      match d with
      | some dd => dd.laps.map (fun lap =>
          { lap_index := lap.lap_index, distance := lap.distance,
            elapsed_time := lap.elapsed_time, moving_time := lap.moving_time,
            average_speed := lap.average_speed, max_speed := lap.max_speed,
            average_heartrate := lap.average_heartrate, max_heartrate := lap.max_heartrate,
            average_cadence := lap.average_cadence, average_watts := lap.average_watts,
            total_elevation_gain := lap.total_elevation_gain, pace_zone := lap.pace_zone })
      | none => []
    splitsMetric :=
      match d with
      | some dd => dd.splits_metric.map (fun split =>
          { split := split.split, distance := split.distance,
            elapsed_time := split.elapsed_time, moving_time := split.moving_time,
            average_speed := split.average_speed, average_heartrate := split.average_heartrate,
            elevation_difference := split.elevation_difference, pace_zone := split.pace_zone })
      | none => []
    bestEfforts :=
      match d with
      | some dd => dd.best_efforts.map (fun effort =>
          { name := effort.name, distance := effort.distance,
            elapsed_time := effort.elapsed_time, moving_time := effort.moving_time,
            pr_rank := effort.pr_rank })
      | none => []
    workoutAnalysis := workoutAnalysis
    source := "strava"
    hasDetailedData := hasDetailedData
    updatedAt := now }

/-- `findMatchingFitActivity`: first stored record whose source is "upload"
and whose start time lies within two minutes of the Strava start time. -/
def findMatchingFitActivity (store : List StoredActivity) (stravaStart : ℤ) :
    Option StoredActivity :=
  store.find? (fun a =>
    decide (a.source = "upload" ∧
      stravaStart - 120000 ≤ a.startTime ∧ a.startTime ≤ stravaStart + 120000))

/-- The merge branch: enrich the matched FIT record with Strava metadata
(aiAnalysisService.ts lines 936-969), preserving FIT sensor data. -/
def mergeInto (sqrtQ : ℚ → ℚ) (b : StravaSummary) (d : Option StravaDetail)
    (now : ℤ) (fit : StoredActivity) : StoredActivity :=
  let doc := mkStravaData sqrtQ b d now
  { fit with
    stravaId := some b.id
    source := "fit+strava"
    name := doc.name
    description := doc.description
    workoutType := doc.workoutType
    runningSubType := doc.runningSubType
    activityCategory := doc.activityCategory
    timezone := doc.timezone
    sufferScore := doc.sufferScore
    gear := doc.gear
    deviceName := doc.deviceName
    map := doc.map
    laps :=
      if (match d with
          | some dd => decide (0 < dd.laps.length)
          | none => false) && decide (fit.laps.length ≤ 1)
      then doc.laps else fit.laps
    splitsMetric := doc.splitsMetric
    bestEfforts := doc.bestEfforts
    workoutAnalysis := doc.workoutAnalysis
    hasDetailedData := true
    updatedAt := now }

/-- Applies the `stravaData` document to an existing stored record (the
update half of the upsert keyed by `stravaId`). -/
def applyDocTo (r : StoredActivity) (doc : StravaDoc) : StoredActivity :=
  { r with
    stravaId := some doc.stravaId
    activityType := doc.activityType
    activityCategory := doc.activityCategory
    runningSubType := doc.runningSubType
    workoutType := doc.workoutType
    sportType := doc.sportType
    name := doc.name
    description := doc.description
    startTime := doc.startTime
    timezone := doc.timezone
    duration := doc.duration
    elapsedTime := doc.elapsedTime
    distance := doc.distance
    elevationGain := doc.elevationGain
    elevHigh := doc.elevHigh
    elevLow := doc.elevLow
    averagePace := doc.averagePace
    averageSpeed := doc.averageSpeed
    maxSpeed := doc.maxSpeed
    averageHR := doc.averageHR
    maxHR := doc.maxHR
    averageCadence := doc.averageCadence
    averageWatts := doc.averageWatts
    maxWatts := doc.maxWatts
    weightedAverageWatts := doc.weightedAverageWatts
    calories := doc.calories
    sufferScore := doc.sufferScore
    gear := doc.gear
    deviceName := doc.deviceName
    map := doc.map
    laps := doc.laps
    splitsMetric := doc.splitsMetric
    bestEfforts := doc.bestEfforts
    workoutAnalysis := doc.workoutAnalysis
    source := doc.source
    hasDetailedData := doc.hasDetailedData
    updatedAt := doc.updatedAt }

/-- A fresh stored record built from the document (the insert half of the
upsert); a new Strava record carries no FIT sensor data. -/
def newFromDoc (doc : StravaDoc) (freshId : ℕ) : StoredActivity :=
  { internalId := freshId
    stravaId := some doc.stravaId
    activityType := doc.activityType
    activityCategory := doc.activityCategory
    runningSubType := doc.runningSubType
    workoutType := doc.workoutType
    sportType := doc.sportType
    name := doc.name
    description := doc.description
    startTime := doc.startTime
    timezone := doc.timezone
    duration := doc.duration
    elapsedTime := doc.elapsedTime
    distance := doc.distance
    elevationGain := doc.elevationGain
    elevHigh := doc.elevHigh
    elevLow := doc.elevLow
    averagePace := doc.averagePace
    averageSpeed := doc.averageSpeed
    maxSpeed := doc.maxSpeed
    averageHR := doc.averageHR
    maxHR := doc.maxHR
    averageCadence := doc.averageCadence
    averageWatts := doc.averageWatts
    maxWatts := doc.maxWatts
    weightedAverageWatts := doc.weightedAverageWatts
    calories := doc.calories
    sufferScore := doc.sufferScore
    gear := doc.gear
    deviceName := doc.deviceName
    map := doc.map
    laps := doc.laps
    splitsMetric := doc.splitsMetric
    bestEfforts := doc.bestEfforts
    workoutAnalysis := doc.workoutAnalysis
    records := []
    avgCadence := 0
    maxCadence := 0
    avgPower := 0
    source := doc.source
    hasDetailedData := doc.hasDetailedData
    updatedAt := doc.updatedAt }

/-- Outcome marker of one iteration of the sync loop. -/
inductive SyncAction where
  | skip
  | merged (targetId : ℕ)
  | upserted
deriving DecidableEq

/-- The body of one sync-loop iteration after the already-synced check: merge
into a matching FIT upload, or upsert keyed by the Strava id. -/
def syncStepNoSkip (sqrtQ : ℚ → ℚ) (store : List StoredActivity) (b : StravaSummary)
    (d : Option StravaDetail) (now : ℤ) (freshId : ℕ) :
    List StoredActivity × SyncAction :=
  let doc := mkStravaData sqrtQ b d now
  match findMatchingFitActivity store b.start_date with
  | some fit =>
    (replaceFirst (fun r => decide (r.internalId = fit.internalId))
      (fun r => mergeInto sqrtQ b d now r) store, SyncAction.merged fit.internalId)
  | none =>
    match store.find? (fun r => decide (r.stravaId = some b.id)) with
    | some _ =>
      (replaceFirst (fun r => decide (r.stravaId = some b.id))
        (fun r => applyDocTo r doc) store, SyncAction.upserted)
    | none => (store ++ [newFromDoc doc freshId], SyncAction.upserted)

/-- One iteration of the `syncActivities` per-activity loop (lines 802-981):
skip when already stored with full data, otherwise merge into a matching FIT
upload or upsert keyed by the Strava id. -/
def syncStep (sqrtQ : ℚ → ℚ) (store : List StoredActivity) (b : StravaSummary)
    (d : Option StravaDetail) (now : ℤ) (freshId : ℕ) :
    List StoredActivity × SyncAction :=
  match store.find? (fun r => decide (r.stravaId = some b.id)) with
  | some existing =>
    if existing.hasDetailedData then (store, SyncAction.skip)
    else syncStepNoSkip sqrtQ store b d now freshId
  | none => syncStepNoSkip sqrtQ store b d now freshId

/- ### Binary (FIT) activity-file decoder (FileParserService) -/

/-- A raw FIT record sample as delivered by the fit parser (cascade mode). -/
structure FitRecordIn where
  timestamp : Option ℤ
  elapsed_time : ℚ
  distance : ℚ
  enhanced_speed : ℚ
  speed : ℚ
  heart_rate : ℚ
  cadence : ℚ
  temperature : ℚ
  power : ℚ
  vertical_oscillation : ℚ
  vertical_ratio : ℚ
  step_length : ℚ
  enhanced_altitude : ℚ
  altitude : ℚ
  position_lat : Option ℚ
  position_long : Option ℚ
deriving DecidableEq

/-- A raw FIT lap as delivered by the fit parser (cascade mode). -/
structure FitLapIn where
  start_time : Option ℤ
  total_timer_time : ℚ
  total_elapsed_time : ℚ
  total_distance : ℚ
  enhanced_avg_speed : ℚ
  avg_speed : ℚ
  enhanced_max_speed : ℚ
  max_speed : ℚ
  avg_heart_rate : ℚ
  max_heart_rate : ℚ
  avg_cadence : ℚ
  max_cadence : ℚ
  total_calories : ℚ
  avg_power : ℚ
  total_ascent : ℚ
  total_descent : ℚ
  avg_vertical_oscillation : ℚ
  avg_stance_time : ℚ
  avg_vertical_ratio : ℚ
  avg_step_length : ℚ
  lap_trigger : Option String
  sport : Option String
  records : List FitRecordIn
deriving DecidableEq

/-- A raw FIT session as delivered by the fit parser (cascade mode). -/
structure FitSession where
  sport : Option String
  sub_sport : Option String
  start_time : Option ℤ
  timestamp : Option ℤ
  total_timer_time : ℚ
  total_elapsed_time : ℚ
  total_distance : ℚ
  enhanced_avg_speed : ℚ
  avg_speed : ℚ
  enhanced_max_speed : ℚ
  max_speed : ℚ
  avg_heart_rate : ℚ
  max_heart_rate : ℚ
  avg_cadence : ℚ
  max_cadence : ℚ
  avg_power : ℚ
  max_power : ℚ
  normalized_power : ℚ
  total_calories : ℚ
  total_training_effect : ℚ
  total_anaerobic_effect : ℚ
  total_ascent : ℚ
  total_descent : ℚ
  avg_temperature : ℚ
  max_temperature : ℚ
  avg_vertical_oscillation : ℚ
  avg_stance_time : ℚ
  avg_vertical_ratio : ℚ
  avg_step_length : ℚ
  start_position_lat : Option ℚ
  start_position_long : Option ℚ
  nec_lat : Option ℚ
  nec_long : Option ℚ
  swc_lat : Option ℚ
  swc_long : Option ℚ
  laps : List FitLapIn
deriving DecidableEq

/-- A session holder (`data.activity` node of the parsed FIT tree). -/
structure FitActivityNode where
  sessions : List FitSession
deriving DecidableEq

/-- The whole parsed FIT tree handed to `normalizeFitData`. -/
structure FitData where
  activity : Option FitActivityNode
  sessions : List FitSession
deriving DecidableEq

/-- A session with every field absent, modelling the `|| {}` fallback. -/
def emptyFitSession : FitSession :=
  { sport := none, sub_sport := none, start_time := none, timestamp := none,
    total_timer_time := 0, total_elapsed_time := 0, total_distance := 0,
    enhanced_avg_speed := 0, avg_speed := 0, enhanced_max_speed := 0, max_speed := 0,
    avg_heart_rate := 0, max_heart_rate := 0, avg_cadence := 0, max_cadence := 0,
    avg_power := 0, max_power := 0, normalized_power := 0, total_calories := 0,
    total_training_effect := 0, total_anaerobic_effect := 0, total_ascent := 0,
    total_descent := 0, avg_temperature := 0, max_temperature := 0,
    avg_vertical_oscillation := 0, avg_stance_time := 0, avg_vertical_ratio := 0,
    avg_step_length := 0, start_position_lat := none, start_position_long := none,
    nec_lat := none, nec_long := none, swc_lat := none, swc_long := none, laps := [] }

/-- `data.activity?.sessions?.[0] || data.sessions?.[0] || {}`. -/
def sessionOf (d : FitData) : FitSession :=
  match d.activity.bind (fun a => a.sessions.head?) with
  | some s => s
  | none => (d.sessions.head?).getD emptyFitSession

/-- The keyword table of `mapSportType`. -/
def sportMapTable : List (String × String) :=
  [("running", "🏃 Running"), ("cycling", "🚴 Ciclismo"), ("swimming", "🏊 Natación"),
   ("walking", "🚶 Caminata"), ("hiking", "🥾 Senderismo"),
   ("strength_training", "🏋️ Fuerza"), ("cardio", "💪 Cardio"), ("other", "🏅 Otro"),
   ("treadmill", "🏃 Cinta"), ("generic", "🏅 Actividad"),
   ("fitness_equipment", "🏋️ Máquina")]

/-- `mapSportType`: table lookup on the lowercased sport, with a generic
fallback label built from the raw sport string. -/
def mapSportType (sport : String) : String :=
  match sportMapTable.lookup (lowerStr sport) with
  | some v => v
  | none => "🏅 " ++ sport

/-- A normalized FIT lap (output shape of `normalizeFitData`). -/
structure FitLapOut where
  index : ℕ
  startTime : Option ℤ
  totalTime : ℚ
  distance : ℚ
  avgSpeed : ℚ
  maxSpeed : ℚ
  avgHR : ℚ
  maxHR : ℚ
  avgCadence : ℚ
  maxCadence : ℚ
  calories : ℚ
  avgPower : ℚ
  elevationGain : ℚ
  elevationLoss : ℚ
  avgVerticalOscillation : ℚ
  avgStanceTime : ℚ
  avgVerticalRatioPct : ℚ
  avgStepLength : ℚ
  intensity : String
  sport : Option String
deriving DecidableEq

/-- The bounding box emitted when `session.nec_lat` is truthy. -/
structure BoundingBox where
  north : ℚ
  east : Option ℚ
  south : Option ℚ
  west : Option ℚ
deriving DecidableEq

/-- Output shape of `normalizeFitData`. -/
structure FitNormalized where
  activityType : String
  subSport : String
  isIndoor : Bool
  name : String
  startTime : Option ℤ
  duration : ℚ
  elapsedTime : ℚ
  distance : ℚ
  averageSpeed : ℚ
  maxSpeed : ℚ
  averageHR : ℚ
  maxHR : ℚ
  avgCadence : ℚ
  maxCadence : ℚ
  avgPower : ℚ
  maxPower : ℚ
  normalizedPower : ℚ
  calories : ℚ
  trainingEffect : ℚ
  anaerobicEffect : ℚ
  elevationGain : ℚ
  elevationLoss : ℚ
  avgTemperature : ℚ
  maxTemperature : ℚ
  avgVerticalOscillation : ℚ
  avgStanceTime : ℚ
  avgVerticalRatioPct : ℚ
  avgStepLength : ℚ
  hasGPS : Bool
  startLat : Option ℚ
  startLng : Option ℚ
  boundingBox : Option BoundingBox
  laps : List FitLapOut
  records : List FitRecordOut
  lapCount : ℕ
deriving DecidableEq

/-- Normalization of one raw FIT lap (with its 1-based index). -/
def normalizeFitLap (sessionSport : Option String) (index : ℕ) (lap : FitLapIn) :
    FitLapOut :=
  { index := index + 1
    startTime := lap.start_time
    totalTime := jsOrQ lap.total_timer_time lap.total_elapsed_time
    distance := lap.total_distance
    avgSpeed := jsOrQ lap.enhanced_avg_speed lap.avg_speed
    maxSpeed := jsOrQ lap.enhanced_max_speed lap.max_speed
    avgHR := lap.avg_heart_rate
    maxHR := lap.max_heart_rate
    avgCadence := if lap.avg_cadence = 0 then 0 else lap.avg_cadence * 2
    maxCadence := if lap.max_cadence = 0 then 0 else lap.max_cadence * 2
    calories := lap.total_calories
    avgPower := lap.avg_power
    elevationGain := lap.total_ascent
    elevationLoss := lap.total_descent
    avgVerticalOscillation := lap.avg_vertical_oscillation
    avgStanceTime := lap.avg_stance_time
    avgVerticalRatioPct := lap.avg_vertical_ratio
    avgStepLength := lap.avg_step_length
    intensity := jsOrStr lap.lap_trigger "manual"
    sport := jsOrOptStr lap.sport sessionSport }

/-- Normalization of one raw FIT record sample. -/
def normalizeFitRecord (r : FitRecordIn) : FitRecordOut :=
  { timestamp := r.timestamp
    elapsedTime := r.elapsed_time
    distance := r.distance
    speed := jsOrQ r.enhanced_speed r.speed
    heartRate := r.heart_rate
    cadence := if r.cadence = 0 then 0 else r.cadence * 2
    temperature := r.temperature
    power := r.power
    verticalOscillation := r.vertical_oscillation
    verticalRatioPct := r.vertical_ratio
    stepLength := r.step_length
    altitude := jsOrQ r.enhanced_altitude r.altitude
    lat := r.position_lat
    lng := r.position_long }

/-- `normalizeFitData`: session summary, flattened laps and flattened records
with all unit normalizations (cadence x2, km to m distance). -/
def normalizeFitData (data : FitData) : FitNormalized :=
  let session := sessionOf data
  let allLaps := session.laps
  let allRecords := (allLaps.map (fun lap => lap.records)).flatten
  let subSport := (session.sub_sport).getD "generic"
  let isIndoor := subSport = "treadmill" ∨ subSport = "indoor_cycling"
  let avgSpeedKmh := jsOrQ session.enhanced_avg_speed session.avg_speed
  let maxSpeedKmh := jsOrQ session.enhanced_max_speed session.max_speed
  let avgCadence := if session.avg_cadence = 0 then 0 else session.avg_cadence * 2
  let maxCadence := if session.max_cadence = 0 then 0 else session.max_cadence * 2
  let distanceKm := session.total_distance
  let laps := allLaps.mapIdx (fun i lap => normalizeFitLap session.sport i lap)
  let records := allRecords.map normalizeFitRecord
  { activityType := mapSportType (jsOrStr session.sport "unknown")
    subSport := subSport
    isIndoor := isIndoor
    name :=
      if session.sport = some "running" ∧ subSport = "treadmill" then "Cinta"
      else if session.sport = some "running" then "Carrera"
      else jsOrStr session.sport "Actividad"
    startTime :=
      match session.start_time with
      | some t => some t
      | none => session.timestamp
    duration := session.total_timer_time
    elapsedTime := session.total_elapsed_time
    distance := distanceKm * 1000
    averageSpeed := avgSpeedKmh
    maxSpeed := maxSpeedKmh
    averageHR := session.avg_heart_rate
    maxHR := session.max_heart_rate
    avgCadence := avgCadence
    maxCadence := maxCadence
    avgPower := session.avg_power
    maxPower := session.max_power
    normalizedPower := session.normalized_power
    calories := session.total_calories
    trainingEffect := session.total_training_effect
    anaerobicEffect := session.total_anaerobic_effect
    elevationGain := session.total_ascent
    elevationLoss := session.total_descent
    avgTemperature := session.avg_temperature
    maxTemperature := session.max_temperature
    avgVerticalOscillation := session.avg_vertical_oscillation
    avgStanceTime := session.avg_stance_time
    avgVerticalRatioPct := session.avg_vertical_ratio
    avgStepLength := session.avg_step_length
    hasGPS := !isIndoor && session.start_position_lat.isSome
    startLat := jsOrNullQ session.start_position_lat
    startLng := jsOrNullQ session.start_position_long
    boundingBox :=
      match session.nec_lat with
      | some v =>
        if v = 0 then none
        else some { north := v, east := session.nec_long,
                    south := session.swc_lat, west := session.swc_long }
      | none => none
    laps := laps
    records := records
    lapCount := laps.length }

/- ### Track-log (GPX) decoder -/

/-- One GPX track point (lat/lon attributes, elevation, timestamp in
milliseconds, optional heart-rate extension). -/
structure GpxPoint where
  lat : ℚ
  lon : ℚ
  ele : ℚ
  time : ℤ
  hr : Option ℤ
deriving DecidableEq

/-- One GPX track segment. -/
structure GpxSeg where
  trkpt : List GpxPoint
deriving DecidableEq

/-- The GPX track element. -/
structure GpxTrack where
  type : Option String
  name : Option String
  trkseg : List GpxSeg
deriving DecidableEq

/-- GPX document metadata. -/
structure GpxMeta where
  time : Option ℤ
deriving DecidableEq

/-- A parsed GPX document. -/
structure GpxDoc where
  trk : Option GpxTrack
  metadata : Option GpxMeta
deriving DecidableEq

/-- `extractTrackPoints`: flatten all segments in document order. -/
def extractTrackPoints (track : GpxTrack) : List GpxPoint :=
  (track.trkseg.map (fun seg => seg.trkpt)).flatten

/-- `calculateDistance`: sum of the haversine distances of consecutive
points; `hav` abstracts the floating-point haversine formula. -/
def calculateDistance (hav : ℚ → ℚ → ℚ → ℚ → ℚ) : List GpxPoint → ℚ
  | [] => 0
  | [_] => 0
  | p :: q :: rest => hav p.lat p.lon q.lat q.lon + calculateDistance hav (q :: rest)

/-- `calculateDuration`: timestamp delta between the first and last point in
seconds; zero when fewer than 2 points. -/
def calculateDuration (points : List GpxPoint) : ℚ :=
  if points.length < 2 then 0
  else ((((points.getLast?).map (fun p => p.time)).getD 0 -
          ((points.head?).map (fun p => p.time)).getD 0 : ℤ) : ℚ) / 1000

/-- `calculateAvgHR`: mean over the points carrying a truthy heart-rate
extension; points without it are excluded; 0 when none carry it. -/
def calculateAvgHR (points : List GpxPoint) : ℚ :=
  let hrPoints := points.filter (fun p =>
    match p.hr with
    | some h => decide (h ≠ 0)
    | none => false)
  if hrPoints.length = 0 then 0
  else ((hrPoints.map (fun p => ((p.hr.getD 0 : ℤ) : ℚ))).sum) / (hrPoints.length : ℚ)

/-- `calculateMaxHR`: maximum over the points carrying a truthy heart-rate
extension; 0 when none carry it. -/
def calculateMaxHR (points : List GpxPoint) : ℤ :=
  let hrValues := (points.filter (fun p =>
    match p.hr with
    | some h => decide (h ≠ 0)
    | none => false)).map (fun p => p.hr.getD 0)
  if 0 < hrValues.length then listMaxZ hrValues else 0

/-- `calculateElevationGain`: sum of the positive consecutive elevation
deltas only. -/
def calculateElevationGain : List GpxPoint → ℚ
  | p :: q :: rest =>
    (if p.ele < q.ele then q.ele - p.ele else 0) + calculateElevationGain (q :: rest)
  | _ => 0

/-- Output shape of `normalizeGpxData` (the no-track branch emits the minimal
zero-valued record). -/
structure GpxNormalized where
  activityType : String
  name : Option String
  startTime : Option ℤ
  duration : ℚ
  distance : ℚ
  calories : ℚ
  averageHR : ℚ
  maxHR : ℤ
  elevationGain : ℚ
deriving DecidableEq

/-- `normalizeGpxData`: computed summaries over the flattened track points,
or a minimal metadata-only record when no track element is present. -/
def normalizeGpxData (hav : ℚ → ℚ → ℚ → ℚ → ℚ) (data : GpxDoc) : GpxNormalized :=
  match data.trk with
  | none =>
    { activityType := "unknown"
      name := none
      startTime := data.metadata.bind (fun m => m.time)
      duration := 0
      distance := 0
      calories := 0
      averageHR := 0
      maxHR := 0
      elevationGain := 0 }
  | some track =>
    let points := extractTrackPoints track
    { activityType := mapSportType (jsOrStr track.type "running")
      name := track.name
      startTime := (points.head?).map (fun p => p.time)
      duration := calculateDuration points
      distance := calculateDistance hav points
      calories := 0
      averageHR := calculateAvgHR points
      maxHR := calculateMaxHR points
      elevationGain := calculateElevationGain points }

/- ### Temporary-file lifecycle of the two parse entry points -/

/-- How far a FIT parse attempt gets: the readFile callback errors, the fit
parser reports a decode error, or decoding succeeds with a parsed tree. -/
inductive FitParseOutcome where
  | readError
  | decodeError
  | success (data : FitData)

/-- `parseFitFile` as a function of the parse outcome: the returned value
(`none` models a rejected promise) and whether `fs.unlink` ran on the
temporary file. The unlink call sits after `normalizeFitData` on the success
path only; both error paths reject without touching the file. -/
def parseFitFile : FitParseOutcome → Option FitNormalized × Bool
  | FitParseOutcome.readError => (none, false)
  | FitParseOutcome.decodeError => (none, false)
  | FitParseOutcome.success data => (some (normalizeFitData data), true)

/-- How far a GPX parse attempt gets: `readFileSync` throws, the XML parser
throws, or parsing succeeds with a document. -/
inductive GpxParseOutcome where
  | readError
  | decodeError
  | success (data : GpxDoc)

/-- `parseGpxFile` as a function of the parse outcome: thrown errors
propagate before the `fs.unlink` call is reached; only the success path
deletes the temporary file. -/
def parseGpxFile (hav : ℚ → ℚ → ℚ → ℚ → ℚ) :
    GpxParseOutcome → Option GpxNormalized × Bool
  | GpxParseOutcome.readError => (none, false)
  | GpxParseOutcome.decodeError => (none, false)
  | GpxParseOutcome.success data => (some (normalizeGpxData hav data), true)

/- ### Category statistics (calculateCategoryStats, aiAnalysisService.ts) -/

/-- The fields of an activity that `calculateCategoryStats` reads (each read
with a `|| 0` fallback or a `> 0` filter, so plain rationals suffice). -/
structure ActivityStatsView where
  distance : ℚ
  duration : ℚ
  calories : ℚ
  averageHR : ℚ
  averagePace : ℚ
deriving DecidableEq

/-- The per-category stats object (CategoryStats interface). -/
structure CategoryStats where
  count : ℕ
  totalDistance : ℚ
  totalDuration : ℚ
  avgHR : ℤ
  avgPace : ℚ
  totalCalories : ℚ
deriving DecidableEq

/-- `calculateCategoryStats`: totals over all activities of the partition,
averages over the sub-list with a strictly positive value only. -/
def calculateCategoryStats (activities : List ActivityStatsView) : CategoryStats :=
  if activities.length = 0 then ⟨0, 0, 0, 0, 0, 0⟩
  else
    let totalDistance := (activities.map (fun a => a.distance)).sum
    let totalDuration := (activities.map (fun a => a.duration)).sum
    let totalCalories := (activities.map (fun a => a.calories)).sum
    let withHR := activities.filter (fun a => decide (0 < a.averageHR))
    let avgHR :=
      if 0 < withHR.length then
        jsRound ((withHR.map (fun a => a.averageHR)).sum / (withHR.length : ℚ))
      else 0
    let withPace := activities.filter (fun a => decide (0 < a.averagePace))
    let avgPace :=
      if 0 < withPace.length then
        (withPace.map (fun a => a.averagePace)).sum / (withPace.length : ℚ)
      else 0
    ⟨activities.length, totalDistance, totalDuration, avgHR, avgPace, totalCalories⟩

/- ### Frontend elevation canonicalizer (getElevationMeters) -/

/-- `getElevationMeters`: null on falsy input, otherwise values under 10 are
taken as kilometers and rescaled, values of 10 and above as meters; both
branches round to the nearest integer. -/
def getElevationMeters (elev : Option ℚ) : Option ℤ :=
  match elev with
  | none => none
  | some v =>
    if v = 0 then none
    else if v < 10 then some (jsRound (v * 1000))
    else some (jsRound v)

/- ### Fixtures and claim-statement definitions -/

/-- A concrete stand-in for the abstracted haversine parameter. -/
def havZero : ℚ → ℚ → ℚ → ℚ → ℚ := fun _ _ _ _ => 0

/-- A concrete stand-in for the abstracted `Math.sqrt` parameter. -/
def sqrtZero : ℚ → ℚ := fun _ => 0

/-- The closed set of tags the two workout classifiers can return. -/
def workoutTagSet : List String :=
  ["intervals", "tempo", "long_run", "easy", "race", "fartlek", "hills",
   "easy_strides", "general"]

/-- The lap-variance tier exactly as claim C6 words it: fewer than 2
qualifying laps abstains with "general"; otherwise the spread thresholds and
then the gross thresholds decide. Written from the claim, for comparison
against `classifyWorkout`. -/
def lapVarianceTierClaimed (activity : StravaDetail) : String :=
  let qualifying := activity.laps.filter (fun lap => decide (200 < lap.distance))
  if qualifying.length < 2 then "general"
  else
    let speeds := qualifying.map (fun lap => lap.average_speed)
    let spread := ((listMax speeds - listMin speeds) / listMin speeds) * 100
    if 15 < spread then "intervals"
    else if 8 < spread then "tempo"
    else grossThresholds activity

/-- The amended lap-variance tier: with fewer than 2 qualifying laps the
variance analysis is skipped and the gross thresholds decide; otherwise as
claimed. -/
def lapVarianceTierAmended (activity : StravaDetail) : String :=
  let qualifying := activity.laps.filter (fun lap => decide (200 < lap.distance))
  if qualifying.length < 2 then grossThresholds activity
  else
    let speeds := qualifying.map (fun lap => lap.average_speed)
    let spread := ((listMax speeds - listMin speeds) / listMin speeds) * 100
    if 15 < spread then "intervals"
    else if 8 < spread then "tempo"
    else grossThresholds activity

/-- The concatenated lowercased name+description text the classifier scans. -/
def classifyText (a : StravaDetail) : String :=
  lowerStr a.name ++ " " ++ lowerStr a.description

/-- No pattern of the text tier matches the activity's name+description. -/
def noTextMatch (a : StravaDetail) : Prop :=
  matchIntervalsFull (classifyText a) = false ∧ matchTempoFull (classifyText a) = false ∧
  matchLongFull (classifyText a) = false ∧ matchEasyFull (classifyText a) = false ∧
  matchRaceFull (classifyText a) = false ∧ matchFartlek (classifyText a) = false ∧
  matchHills (classifyText a) = false ∧ matchStrides (classifyText a) = false

/-- A 16 km activity with an uninformative name and no laps. -/
def longRunNoLaps : StravaDetail :=
  { name := "", description := "", sport_type := none, timezone := none,
    distance := 16000, total_elevation_gain := 120, average_speed := none,
    max_speed := none, average_heartrate := none, max_heartrate := none,
    average_cadence := none, average_watts := none, max_watts := none,
    weighted_average_watts := none, calories := none, suffer_score := none,
    elev_high := none, elev_low := none, device_name := none, gear := none,
    map := none, laps := [], splits_metric := [], best_efforts := [] }

/-- A summary activity named "Recovery". -/
def recoverySummary : StravaSummary :=
  { id := 9, type := "Run", name := "Recovery", start_date := 0, moving_time := 1500,
    elapsed_time := 1500, distance := 4000, total_elevation_gain := 0,
    average_speed := none, max_speed := none, average_heartrate := none,
    max_heartrate := none, kilojoules := none }

/-- A detailed activity named "Recovery". -/
def recoveryDetail : StravaDetail :=
  { name := "Recovery", description := "", sport_type := none, timezone := none,
    distance := 4000, total_elevation_gain := 0, average_speed := none,
    max_speed := none, average_heartrate := none, max_heartrate := none,
    average_cadence := none, average_watts := none, max_watts := none,
    weighted_average_watts := none, calories := none, suffer_score := none,
    elev_high := none, elev_low := none, device_name := none, gear := none,
    map := none, laps := [], splits_metric := [], best_efforts := [] }

/-- A polled summary activity whose detail fetch reported 80 steps per leg. -/
def cadenceSummary : StravaSummary :=
  { id := 11, type := "Run", name := "Morning Run", start_date := 0, moving_time := 1800,
    elapsed_time := 1850, distance := 6000, total_elevation_gain := 20,
    average_speed := none, max_speed := none, average_heartrate := none,
    max_heartrate := none, kilojoules := none }

/-- The detailed payload carrying `average_cadence = 80` (per leg). -/
def cadenceDetail : StravaDetail :=
  { name := "Morning Run", description := "", sport_type := none, timezone := none,
    distance := 6000, total_elevation_gain := 20, average_speed := none,
    max_speed := none, average_heartrate := none, max_heartrate := none,
    average_cadence := some 80, average_watts := none, max_watts := none,
    weighted_average_watts := none, calories := none, suffer_score := none,
    elev_high := none, elev_low := none, device_name := none, gear := none,
    map := none, laps := [], splits_metric := [], best_efforts := [] }

/-- A stored FIT-uploaded activity starting at t = 1,000,000 ms. -/
def fitUpload : StoredActivity :=
  { internalId := 1, stravaId := none, activityType := "🏃 Running",
    activityCategory := "cardio_running", runningSubType := none,
    workoutType := "general", sportType := "Run", name := "Carrera",
    description := "", startTime := 1000000, timezone := none, duration := 1800,
    elapsedTime := 1850, distance := 6000, elevationGain := 50, elevHigh := none,
    elevLow := none, averagePace := 5, averageSpeed := some 12, maxSpeed := some 15,
    averageHR := some 150, maxHR := some 170, averageCadence := none,
    averageWatts := none, maxWatts := none, weightedAverageWatts := none,
    calories := 400, sufferScore := none, gear := none, deviceName := none,
    map := none, laps := [], splitsMetric := [], bestEfforts := [],
    workoutAnalysis := none, records := [], avgCadence := 170, maxCadence := 180,
    avgPower := 0, source := "upload", hasDetailedData := false, updatedAt := 0 }

/-- A polled Strava activity starting 60 s after `fitUpload`. -/
def syncSummary : StravaSummary :=
  { id := 42, type := "Run", name := "Morning Run", start_date := 1060000,
    moving_time := 1800, elapsed_time := 1900, distance := 6000,
    total_elevation_gain := 50, average_speed := none, max_speed := none,
    average_heartrate := none, max_heartrate := none, kilojoules := none }

/-- A running activity view with positive heart rate and pace. -/
def statsRun : ActivityStatsView :=
  { distance := 1000, duration := 600, calories := 100, averageHR := 150, averagePace := 5 }

/-- An activity view whose heart rate and pace are absent (stored as 0). -/
def statsZero : ActivityStatsView :=
  { distance := 2000, duration := 700, calories := 120, averageHR := 0, averagePace := 0 }

/- ### Shared helper lemmas -/

theorem mem_replaceFirst {α : Type} (p : α → Bool) (f : α → α) (l : List α) (x : α)
    (hx : x ∈ replaceFirst p f l) : x ∈ l ∨ ∃ y ∈ l, p y = true ∧ x = f y := by
  induction l with
  | nil => simp [replaceFirst] at hx
  | cons a as ih =>
    unfold replaceFirst at hx
    split_ifs at hx with ha
    · rcases List.mem_cons.mp hx with h | h
      · exact Or.inr ⟨a, List.mem_cons_self a as, ha, h⟩
      · exact Or.inl (List.mem_cons_of_mem a h)
    · rcases List.mem_cons.mp hx with h | h
      · exact Or.inl (h ▸ List.mem_cons_self a as)
      · rcases ih h with h2 | ⟨y, hy, hpy, hxy⟩
        · exact Or.inl (List.mem_cons_of_mem a h2)
        · exact Or.inr ⟨y, List.mem_cons_of_mem a hy, hpy, hxy⟩

theorem mem_replaceFirst_of_neg {α : Type} (p : α → Bool) (f : α → α) (l : List α) (x : α)
    (hx : x ∈ l) (hpx : p x = false) : x ∈ replaceFirst p f l := by
  induction l with
  | nil => simp at hx
  | cons a as ih =>
    unfold replaceFirst
    rcases List.mem_cons.mp hx with h | h
    · subst h
      simp [hpx]
    · split_ifs with hpa
      · exact List.mem_cons_of_mem (f a) h
      · exact List.mem_cons_of_mem a (ih h)

theorem exists_replaceFirst {α : Type} (p : α → Bool) (f : α → α) (l : List α)
    (hex : ∃ x ∈ l, p x = true) :
    ∃ y, p y = true ∧ f y ∈ replaceFirst p f l := by
  induction l with
  | nil =>
    obtain ⟨x, hx, _⟩ := hex
    simp at hx
  | cons a as ih =>
    unfold replaceFirst
    by_cases ha : p a = true
    · exact ⟨a, ha, by simp [ha]⟩
    · obtain ⟨x, hx, hpx⟩ := hex
      rcases List.mem_cons.mp hx with rfl | hxs
      · exact absurd hpx ha
      · obtain ⟨y, hpy, hy⟩ := ih ⟨x, hxs, hpx⟩
        refine ⟨y, hpy, ?_⟩
        simp only [Bool.not_eq_true] at ha
        simp only [ha, Bool.false_eq_true, if_false]
        exact List.mem_cons_of_mem a hy

theorem applyBestHalf_p10K (pow106 : ℚ → ℚ) (bh : Option ℚ) (p : PredictionTable) :
    (applyBestHalf pow106 bh p).p10K = p.p10K := by
  unfold applyBestHalf
  rcases bh with _ | t
  · rfl
  · dsimp only
    split_ifs <;> rfl

theorem lapVarianceTier_cases (a : StravaDetail) :
    lapVarianceTier a = none ∨ lapVarianceTier a = some "intervals" ∨
      lapVarianceTier a = some "tempo" := by
  unfold lapVarianceTier
  dsimp only
  split
  · split
    · split
      · simp
      · split <;> simp
    · simp
  · simp

theorem grossThresholds_cases (a : StravaDetail) :
    grossThresholds a = "long_run" ∨ grossThresholds a = "easy" ∨
      grossThresholds a = "general" := by
  unfold grossThresholds
  dsimp only
  split_ifs <;> simp

theorem classifyWorkout_mem (a : StravaDetail) : classifyWorkout a ∈ workoutTagSet := by
  unfold classifyWorkout
  dsimp only
  split_ifs <;> try simp [workoutTagSet]
  rcases lapVarianceTier_cases a with h | h | h <;> rw [h]
  · rcases grossThresholds_cases a with g | g | g <;> rw [g] <;> simp [workoutTagSet]
  · simp [workoutTagSet]
  · simp [workoutTagSet]

theorem classifyWorkoutBasic_mem (b : StravaSummary) :
    classifyWorkoutBasic b ∈ workoutTagSet := by
  unfold classifyWorkoutBasic
  dsimp only
  split_ifs <;> simp [workoutTagSet]

/- ### Claim C1 — PR override in the predictions endpoint -/

/-- Claim C1 counterexample: with a 20:00 5K PB and a 60:00 10K PB, the final
10K prediction keeps the smaller 5K-extrapolated value (2502 s, tagged
"5K PR") instead of the genuine 10K personal best — the claimed unconditional
PR override does not hold (`pow106Approx` instantiates `Math.pow(·, 1.06)`
with rational values accurate to about 1e-5 at the evaluated ratios). -/
theorem C1_counterexample :
    (buildPredictions pow106Approx (some 1200) (some 3600) none).p10K ≠
      some ⟨3600, "PR"⟩ ∧
    (buildPredictions pow106Approx (some 1200) (some 3600) none).p10K =
      some ⟨2502, "5K PR"⟩ := by
  have h : (buildPredictions pow106Approx (some 1200) (some 3600) none).p10K
      = some ⟨2502, "5K PR"⟩ := by
    norm_num [buildPredictions, applyBest5K, applyBest10K, applyBestHalf,
      upsertSlot, emptyPredictions, riegel, pow106Approx, jsRound]
  refine ⟨?_, h⟩
  rw [h]
  intro hc
  have := (Option.some.injEq _ _).mp hc
  simp only [RacePrediction.mk.injEq] at this
  norm_num at this

/-- Claim C1 (amended): a genuine 10K (resp. Half-Marathon) personal best
becomes the final 10K (resp. Half-Marathon) prediction only when no
extrapolated prediction for that distance exists or the personal best is
numerically smaller than it (the `upsertSlot` competition); otherwise the
extrapolated value stands, for every model of the floating-point power
function and every combination of stored personal bests. -/
theorem C1_theorem (pow106 : ℚ → ℚ) (b5 b10 bh : Option ℚ) (t s : ℚ)
    (ht : t ≠ 0) (hs : s ≠ 0) :
    (buildPredictions pow106 b5 (some t) bh).p10K =
      upsertSlot ⟨t, "PR"⟩ ((applyBest5K pow106 b5 emptyPredictions).p10K) ∧
    (buildPredictions pow106 b5 b10 (some s)).pHalf =
      upsertSlot ⟨s, "PR"⟩
        ((applyBest10K pow106 b10 (applyBest5K pow106 b5 emptyPredictions)).pHalf) := by
  constructor
  · rw [buildPredictions, applyBestHalf_p10K]
    unfold applyBest10K
    dsimp only
    rw [if_neg ht]
  · rw [buildPredictions]
    unfold applyBestHalf
    dsimp only
    rw [if_neg hs]

/-- Claim C1 witness: the amended override policy at the concrete personal
bests 1200 s (5K), 3600 s (10K) and 5000 s (Half-Marathon). -/
theorem C1_witness :
    (buildPredictions pow106Approx (some 1200) (some 3600) (some 5000)).p10K =
      upsertSlot ⟨3600, "PR"⟩
        ((applyBest5K pow106Approx (some 1200) emptyPredictions).p10K) ∧
    (buildPredictions pow106Approx (some 1200) (some 3600) (some 5000)).pHalf =
      upsertSlot ⟨5000, "PR"⟩
        ((applyBest10K pow106Approx (some 3600)
          (applyBest5K pow106Approx (some 1200) emptyPredictions)).pHalf) :=
  C1_theorem pow106Approx (some 1200) (some 3600) (some 5000) 3600 5000
    (by norm_num) (by norm_num)

/- ### Claim C2 — idempotence of the FIT/Strava merge -/

/-- Claim C2: when a polled activity `b` merges into a stored FIT upload
(a time-window match exists and `b` is not yet stored under its Strava id),
running the sync step a second time against the same pair is a skip: the
store after the second run equals the store after the first merge, so no
sub-structure is duplicated and no merged field changes. -/
theorem C2_theorem (sqrtQ : ℚ → ℚ) (store : List StoredActivity) (b : StravaSummary)
    (d : Option StravaDetail) (now1 now2 : ℤ) (fresh1 fresh2 : ℕ)
    (hNoStrava : ∀ r ∈ store, r.stravaId ≠ some b.id)
    (hMatch : (findMatchingFitActivity store b.start_date).isSome) :
    (syncStep sqrtQ (syncStep sqrtQ store b d now1 fresh1).1 b d now2 fresh2).1
      = (syncStep sqrtQ store b d now1 fresh1).1 ∧
    (syncStep sqrtQ (syncStep sqrtQ store b d now1 fresh1).1 b d now2 fresh2).2
      = SyncAction.skip := by
  have hfind0 : store.find? (fun r => decide (r.stravaId = some b.id)) = none := by
    rw [List.find?_eq_none]
    intro r hr
    simp [hNoStrava r hr]
  obtain ⟨fit, hfit⟩ := Option.isSome_iff_exists.mp hMatch
  have hstep1 : syncStep sqrtQ store b d now1 fresh1 =
      (replaceFirst (fun r => decide (r.internalId = fit.internalId))
        (fun r => mergeInto sqrtQ b d now1 r) store, SyncAction.merged fit.internalId) := by
    unfold syncStep
    rw [hfind0]
    unfold syncStepNoSkip
    rw [hfit]
  set store1 := replaceFirst (fun r => decide (r.internalId = fit.internalId))
    (fun r => mergeInto sqrtQ b d now1 r) store with hstore1
  have hall : ∀ x ∈ store1, x.stravaId = some b.id → x.hasDetailedData = true := by
    intro x hx hxid
    rcases mem_replaceFirst _ _ _ _ hx with h | ⟨y, _, _, hxy⟩
    · exact absurd hxid (hNoStrava x h)
    · rw [hxy]
      rfl
  have hmem : ∃ e ∈ store1, e.stravaId = some b.id := by
    obtain ⟨y, hpy, hy⟩ := exists_replaceFirst
      (fun r => decide (r.internalId = fit.internalId))
      (fun r => mergeInto sqrtQ b d now1 r) store
      ⟨fit, List.mem_of_find?_eq_some hfit, by simp⟩
    exact ⟨mergeInto sqrtQ b d now1 y, hy, rfl⟩
  have hfindSome : (store1.find? (fun r => decide (r.stravaId = some b.id))).isSome := by
    rw [List.find?_isSome]
    obtain ⟨e, he, hid⟩ := hmem
    exact ⟨e, he, by simp [hid]⟩
  obtain ⟨e, hfind1⟩ := Option.isSome_iff_exists.mp hfindSome
  have heDet : e.hasDetailedData = true := by
    apply hall e (List.mem_of_find?_eq_some hfind1)
    have := List.find?_some hfind1
    simpa using this
  rw [hstep1]
  dsimp only
  constructor
  · unfold syncStep
    rw [hfind1]
    dsimp only
    rw [if_pos heDet]
  · unfold syncStep
    rw [hfind1]
    dsimp only
    rw [if_pos heDet]

/-- Claim C2 witness: a store holding one FIT upload and a polled activity
starting 60 s later — the second sync run leaves the merged store unchanged. -/
theorem C2_witness :
    (syncStep sqrtZero (syncStep sqrtZero [fitUpload] syncSummary none 5 7).1
        syncSummary none 6 8).1
      = (syncStep sqrtZero [fitUpload] syncSummary none 5 7).1 ∧
    (syncStep sqrtZero (syncStep sqrtZero [fitUpload] syncSummary none 5 7).1
        syncSummary none 6 8).2 = SyncAction.skip :=
  C2_theorem sqrtZero [fitUpload] syncSummary none 5 6 7 8
    (by decide) (by decide)

/- ### Claim C4 — merge exactly on the two-minute window -/

/-- Claim C4: during a sync run on an incoming polled activity not already
stored with full data, a merge happens exactly when the store holds a record
with source "upload" whose start time lies within the closed two-minute
window around the incoming start time; the merge target always satisfies
that condition, and when no record does, the step is an upsert keyed by the
Strava id: a record carrying the incoming id is present afterwards and every
record with a different id persists unchanged. -/
theorem C4_theorem (sqrtQ : ℚ → ℚ) (store : List StoredActivity) (b : StravaSummary)
    (d : Option StravaDetail) (now : ℤ) (freshId : ℕ)
    (hNoSkip : ∀ r ∈ store, r.stravaId = some b.id → r.hasDetailedData = false) :
    (∀ tid, (syncStep sqrtQ store b d now freshId).2 = SyncAction.merged tid →
      ∃ A ∈ store, A.internalId = tid ∧ A.source = "upload" ∧
        |A.startTime - b.start_date| ≤ 120000) ∧
    ((∃ A ∈ store, A.source = "upload" ∧ |A.startTime - b.start_date| ≤ 120000) →
      ∃ tid, (syncStep sqrtQ store b d now freshId).2 = SyncAction.merged tid) ∧
    ((∀ A ∈ store, ¬(A.source = "upload" ∧ |A.startTime - b.start_date| ≤ 120000)) →
      (syncStep sqrtQ store b d now freshId).2 = SyncAction.upserted ∧
      (∃ r ∈ (syncStep sqrtQ store b d now freshId).1, r.stravaId = some b.id) ∧
      (∀ A ∈ store, A.stravaId ≠ some b.id →
        A ∈ (syncStep sqrtQ store b d now freshId).1)) := by
  have habs : ∀ A : StoredActivity,
      (A.source = "upload" ∧ b.start_date - 120000 ≤ A.startTime ∧
        A.startTime ≤ b.start_date + 120000) ↔
      (A.source = "upload" ∧ |A.startTime - b.start_date| ≤ 120000) := by
    intro A
    rw [abs_le]
    constructor
    · rintro ⟨h1, h2, h3⟩
      exact ⟨h1, by omega, by omega⟩
    · rintro ⟨h1, h2, h3⟩
      exact ⟨h1, by omega, by omega⟩
  have hnoskip2 : syncStep sqrtQ store b d now freshId =
      syncStepNoSkip sqrtQ store b d now freshId := by
    unfold syncStep
    rcases hf : store.find? (fun r => decide (r.stravaId = some b.id)) with _ | e
    · rw [hf]
    · rw [hf]
      dsimp only
      rw [if_neg]
      have he : e ∈ store := List.mem_of_find?_eq_some hf
      have hpe : e.stravaId = some b.id := by simpa using List.find?_some hf
      simp [hNoSkip e he hpe]
  rw [hnoskip2]
  refine ⟨?_, ?_, ?_⟩
  · intro tid htid
    unfold syncStepNoSkip at htid
    rcases hm : findMatchingFitActivity store b.start_date with _ | fit
    · rw [hm] at htid
      dsimp only at htid
      rcases hf2 : store.find? (fun r => decide (r.stravaId = some b.id)) with _ | e
      · rw [hf2] at htid
        simp at htid
      · rw [hf2] at htid
        simp at htid
    · rw [hm] at htid
      dsimp only at htid
      have hid : fit.internalId = tid := by
        have := htid
        injection this
      have hfitmem : fit ∈ store := List.mem_of_find?_eq_some hm
      have hp : fit.source = "upload" ∧ b.start_date - 120000 ≤ fit.startTime ∧
          fit.startTime ≤ b.start_date + 120000 := by
        simpa using List.find?_some hm
      exact ⟨fit, hfitmem, hid, ((habs fit).mp hp).1, ((habs fit).mp hp).2⟩
  · rintro ⟨A, hA, hsrc, hwin⟩
    have hex : (findMatchingFitActivity store b.start_date).isSome := by
      unfold findMatchingFitActivity
      rw [List.find?_isSome]
      exact ⟨A, hA, by simpa using (habs A).mpr ⟨hsrc, hwin⟩⟩
    obtain ⟨fit, hfit⟩ := Option.isSome_iff_exists.mp hex
    refine ⟨fit.internalId, ?_⟩
    unfold syncStepNoSkip
    rw [hfit]
  · intro hnone
    have hfnone : findMatchingFitActivity store b.start_date = none := by
      unfold findMatchingFitActivity
      rw [List.find?_eq_none]
      intro A hA
      simp only [decide_eq_true_eq, not_and]
      intro hsrc hge hle
      exact absurd ((habs A).mp ⟨hsrc, hge, hle⟩).2 (by
        have := hnone A hA
        intro hw
        exact this ⟨hsrc, hw⟩)
    unfold syncStepNoSkip
    rw [hfnone]
    dsimp only
    rcases hf2 : store.find? (fun r => decide (r.stravaId = some b.id)) with _ | e
    · rw [hf2]
      dsimp only
      refine ⟨rfl, ⟨newFromDoc (mkStravaData sqrtQ b d now) freshId, by simp, rfl⟩, ?_⟩
      intro A hA _
      exact List.mem_append_left _ hA
    · rw [hf2]
      dsimp only
      refine ⟨rfl, ?_, ?_⟩
      · obtain ⟨y, hpy, hy⟩ := exists_replaceFirst
          (fun r => decide (r.stravaId = some b.id))
          (fun r => applyDocTo r (mkStravaData sqrtQ b d now)) store
          ⟨e, List.mem_of_find?_eq_some hf2, by simpa using List.find?_some hf2⟩
        exact ⟨applyDocTo y (mkStravaData sqrtQ b d now), hy, rfl⟩
      · intro A hA hAid
        exact mem_replaceFirst_of_neg _ _ _ _ hA (by simpa using hAid)

/-- Claim C4 witness: the merge/upsert characterization at the concrete
one-upload store and a polled activity 60 s away. -/
theorem C4_witness :
    (∀ tid, (syncStep sqrtZero [fitUpload] syncSummary none 0 2).2 =
        SyncAction.merged tid →
      ∃ A ∈ [fitUpload], A.internalId = tid ∧ A.source = "upload" ∧
        |A.startTime - syncSummary.start_date| ≤ 120000) ∧
    ((∃ A ∈ [fitUpload], A.source = "upload" ∧
        |A.startTime - syncSummary.start_date| ≤ 120000) →
      ∃ tid, (syncStep sqrtZero [fitUpload] syncSummary none 0 2).2 =
        SyncAction.merged tid) ∧
    ((∀ A ∈ [fitUpload], ¬(A.source = "upload" ∧
        |A.startTime - syncSummary.start_date| ≤ 120000)) →
      (syncStep sqrtZero [fitUpload] syncSummary none 0 2).2 = SyncAction.upserted ∧
      (∃ r ∈ (syncStep sqrtZero [fitUpload] syncSummary none 0 2).1,
        r.stravaId = some syncSummary.id) ∧
      (∀ A ∈ [fitUpload], A.stravaId ≠ some syncSummary.id →
        A ∈ (syncStep sqrtZero [fitUpload] syncSummary none 0 2).1)) :=
  C4_theorem sqrtZero [fitUpload] syncSummary none 0 2 (by decide)

/- ### Claim C3 — temporary-file cleanup of the parse entry points -/

/-- Claim C3 counterexample: on a decode error, neither `parseFitFile` nor
`parseGpxFile` deletes the temporary source file (the error is surfaced but
the unlink on the success path is never reached), refuting the claimed
unconditional cleanup. -/
theorem C3_counterexample :
    (parseFitFile FitParseOutcome.decodeError).2 = false ∧
    (parseGpxFile havZero GpxParseOutcome.decodeError).2 = false :=
  ⟨rfl, rfl⟩

/-- Claim C3 (amended): both parse entry points delete the temporary source
file exactly on success — the deletion flag equals the success of the
returned value; on a read or decode error the file is left in place. -/
theorem C3_theorem :
    (∀ o : FitParseOutcome, (parseFitFile o).2 = (parseFitFile o).1.isSome) ∧
    (∀ (hav : ℚ → ℚ → ℚ → ℚ → ℚ) (o : GpxParseOutcome),
      (parseGpxFile hav o).2 = (parseGpxFile hav o).1.isSome) := by
  constructor
  · intro o
    cases o <;> rfl
  · intro hav o
    cases o <;> rfl

/- ### Claim C5 — cadence doubling on the two ingestion paths -/

/-- Claim C5 counterexample: the polled-API path stores the summary average
cadence exactly as reported (80, per leg), not doubled — the claimed
uniform times-two rule fails on the Strava side. -/
theorem C5_counterexample :
    (mkStravaData sqrtZero cadenceSummary (some cadenceDetail) 0).averageCadence
      = some 80 ∧ (80 : ℚ) ≠ 2 * 80 := by
  constructor
  · rfl
  · norm_num

/-- Claim C5 (amended): the FIT decoder stores session, lap and record
cadences doubled (canonical = 2 x per-leg, with 0 for an absent value), while
the polled-API path stores the detailed summary average cadence as reported,
without doubling. -/
theorem C5_theorem :
    (∀ data : FitData,
      (normalizeFitData data).avgCadence = 2 * (sessionOf data).avg_cadence ∧
      (normalizeFitData data).maxCadence = 2 * (sessionOf data).max_cadence) ∧
    (∀ (sport : Option String) (i : ℕ) (lap : FitLapIn),
      (normalizeFitLap sport i lap).avgCadence = 2 * lap.avg_cadence ∧
      (normalizeFitLap sport i lap).maxCadence = 2 * lap.max_cadence) ∧
    (∀ r : FitRecordIn, (normalizeFitRecord r).cadence = 2 * r.cadence) ∧
    (∀ (sqrtQ : ℚ → ℚ) (b : StravaSummary) (d : StravaDetail) (now : ℤ),
      (mkStravaData sqrtQ b (some d) now).averageCadence = d.average_cadence) := by
  have key : ∀ c : ℚ, (if c = 0 then 0 else c * 2) = 2 * c := by
    intro c
    split_ifs with h
    · rw [h, mul_zero]
    · rw [mul_comm]
  refine ⟨fun data => ⟨?_, ?_⟩, fun sport i lap => ⟨?_, ?_⟩, fun r => ?_,
    fun sqrtQ b d now => rfl⟩ <;>
    simp only [normalizeFitData, normalizeFitLap, normalizeFitRecord, key]

/- ### Claim C6 — the lap-variance tier of classifyWorkout -/

/-- Claim C6 counterexample: a 16 km activity with no matching text and no
laps is classified "long_run" by the gross thresholds, while the claimed
behaviour (abstain with "general" whenever fewer than 2 qualifying laps
exist) yields "general". -/
theorem C6_counterexample :
    classifyWorkout longRunNoLaps = "long_run" ∧
    lapVarianceTierClaimed longRunNoLaps = "general" ∧
    ("long_run" : String) ≠ "general" := by
  refine ⟨?_, ?_, by decide⟩
  · unfold classifyWorkout
    dsimp only
    rw [if_neg (by decide), if_neg (by decide), if_neg (by decide), if_neg (by decide),
      if_neg (by decide), if_neg (by decide), if_neg (by decide), if_neg (by decide)]
    have h : lapVarianceTier longRunNoLaps = none := by
      unfold lapVarianceTier
      dsimp only
      rw [if_neg (by decide)]
    rw [h]
    unfold grossThresholds
    dsimp only
    rw [if_pos (by norm_num [longRunNoLaps])]
  · unfold lapVarianceTierClaimed
    dsimp only
    rw [if_pos (by decide)]

/-- Claim C6 (amended): when no text pattern matches, `classifyWorkout`
behaves as the variance tier with fall-through: laps with distance > 200
qualify; with fewer than 2 qualifying laps the variance analysis is skipped
and the gross thresholds decide (distance > 15 km gives "long_run", distance
< 8 km with average HR < 140 gives "easy", else "general"); with at least 2
qualifying laps, a relative spread over 15% gives "intervals", over 8%
"tempo", and otherwise the same gross thresholds decide. -/
theorem C6_theorem (a : StravaDetail) (h : noTextMatch a) :
    classifyWorkout a = lapVarianceTierAmended a := by
  obtain ⟨h1, h2, h3, h4, h5, h6, h7, h8⟩ := h
  simp only [classifyText] at h1 h2 h3 h4 h5 h6 h7 h8
  unfold classifyWorkout
  dsimp only
  rw [if_neg (by simp [h1]), if_neg (by simp [h2]), if_neg (by simp [h3]),
    if_neg (by simp [h4]), if_neg (by simp [h5]), if_neg (by simp [h6]),
    if_neg (by simp [h7]), if_neg (by simp [h8])]
  unfold lapVarianceTier lapVarianceTierAmended
  dsimp only
  simp only [List.length_map]
  by_cases hq : 2 ≤ (a.laps.filter (fun lap => decide (200 < lap.distance))).length
  · have hlaps : 1 < a.laps.length := by
      have := List.length_filter_le (fun lap => decide (200 < lap.distance)) a.laps
      omega
    rw [if_pos hlaps, if_pos hq, if_neg (by omega : ¬ _ < 2)]
    split_ifs <;> rfl
  · rw [if_pos (by omega : _ < 2)]
    by_cases hlaps : 1 < a.laps.length
    · rw [if_pos hlaps, if_neg hq]
    · rw [if_neg hlaps]

/-- Claim C6 witness: the amended fall-through behaviour evaluated on the
16 km no-lap activity (whose empty text matches no pattern). -/
theorem C6_witness :
    classifyWorkout longRunNoLaps = lapVarianceTierAmended longRunNoLaps :=
  C6_theorem longRunNoLaps (by unfold noTextMatch; decide)

/- ### Claim C7 — elevation canonicalizer -/

/-- Claim C7 counterexample: at v = 10.5 the canonicalized elevation is the
rounded integer 11, not the claimed raw value v — the claim omits the
`Math.round` in both branches. -/
theorem C7_counterexample :
    getElevationMeters (some (21/2)) = some 11 ∧ ((11 : ℚ) ≠ 21/2) := by
  constructor
  · norm_num [getElevationMeters, jsRound]
  · norm_num

/-- Claim C7 (amended): for every positive v the canonicalized elevation is
`round(v * 1000)` when v < 10 and `round(v)` when v ≥ 10 (rounding to the
nearest integer); at the boundary v = 10 the value is treated as already in
meters and returned unscaled, as 10. -/
theorem C7_theorem :
    (∀ v : ℚ, 0 < v →
      getElevationMeters (some v) =
        if v < 10 then some (jsRound (v * 1000)) else some (jsRound v)) ∧
    getElevationMeters (some 10) = some 10 := by
  constructor
  · intro v hv
    simp only [getElevationMeters]
    rw [if_neg hv.ne']
  · norm_num [getElevationMeters, jsRound]

/-- Claim C7 witness: the amended rule evaluated at v = 5. -/
theorem C7_witness :
    getElevationMeters (some 5) =
      if (5 : ℚ) < 10 then some (jsRound (5 * 1000)) else some (jsRound 5) :=
  C7_theorem.1 5 (by norm_num)

/- ### Claim C8 — selectively-averaged category statistics -/

/-- Claim C8: category statistics average heart rate and pace only over the
activities with a strictly positive value: the empty partition yields the
all-zero stats object, a partition with no positive value yields 0 for that
average, and appending an activity with nonpositive heart rate and pace
changes neither average (the denominator is the count of positive values,
not the partition size) — so no division by zero can occur. -/
theorem C8_theorem :
    (calculateCategoryStats [] = ⟨0, 0, 0, 0, 0, 0⟩) ∧
    (∀ acts : List ActivityStatsView, (∀ a ∈ acts, a.averageHR ≤ 0) →
      (calculateCategoryStats acts).avgHR = 0) ∧
    (∀ acts : List ActivityStatsView, (∀ a ∈ acts, a.averagePace ≤ 0) →
      (calculateCategoryStats acts).avgPace = 0) ∧
    (∀ (acts : List ActivityStatsView) (e : ActivityStatsView),
      e.averageHR ≤ 0 → e.averagePace ≤ 0 →
      (calculateCategoryStats (acts ++ [e])).avgHR = (calculateCategoryStats acts).avgHR ∧
      (calculateCategoryStats (acts ++ [e])).avgPace =
        (calculateCategoryStats acts).avgPace) := by
  have hfil : ∀ (acts : List ActivityStatsView) (e : ActivityStatsView)
      (f : ActivityStatsView → ℚ), f e ≤ 0 →
      (acts ++ [e]).filter (fun a => decide (0 < f a)) =
        acts.filter (fun a => decide (0 < f a)) := by
    intro acts e f hf
    rw [List.filter_append]
    simp [List.filter, not_lt.mpr hf]
  refine ⟨rfl, ?_, ?_, ?_⟩
  · intro acts h
    unfold calculateCategoryStats
    split_ifs with h0
    · rfl
    · dsimp only
      rw [List.filter_eq_nil_iff.mpr (by intro a ha; simpa using not_lt.mpr (h a ha))]
      simp
  · intro acts h
    unfold calculateCategoryStats
    split_ifs with h0
    · rfl
    · dsimp only
      rw [List.filter_eq_nil_iff.mpr (by intro a ha; simpa using not_lt.mpr (h a ha))]
      simp
  · intro acts e hHR hPace
    rcases acts with _ | ⟨a0, rest⟩
    · constructor
      · unfold calculateCategoryStats
        simp only [List.nil_append]
        rw [if_neg (by simp)]
        dsimp only
        rw [List.filter_eq_nil_iff.mpr
          (by intro a ha; simp at ha; subst ha; simpa using not_lt.mpr hHR)]
        simp
      · unfold calculateCategoryStats
        simp only [List.nil_append]
        rw [if_neg (by simp)]
        dsimp only
        rw [List.filter_eq_nil_iff.mpr
          (by intro a ha; simp at ha; subst ha; simpa using not_lt.mpr hPace)]
        simp
    · constructor
      · unfold calculateCategoryStats
        rw [if_neg (by simp), if_neg (by simp)]
        dsimp only
        rw [hfil (a0 :: rest) e (fun a => a.averageHR) hHR]
      · unfold calculateCategoryStats
        rw [if_neg (by simp), if_neg (by simp)]
        dsimp only
        rw [hfil (a0 :: rest) e (fun a => a.averagePace) hPace]

/-- Claim C8 witness: the selective averages on concrete partitions — a
partition holding only a no-sensor activity averages to 0, and appending a
no-sensor activity to a partition leaves both averages unchanged. -/
theorem C8_witness :
    (calculateCategoryStats [statsZero]).avgHR = 0 ∧
    (calculateCategoryStats [statsZero]).avgPace = 0 ∧
    ((calculateCategoryStats ([statsRun] ++ [statsZero])).avgHR =
        (calculateCategoryStats [statsRun]).avgHR ∧
      (calculateCategoryStats ([statsRun] ++ [statsZero])).avgPace =
        (calculateCategoryStats [statsRun]).avgPace) :=
  ⟨C8_theorem.2.1 [statsZero]
      (by intro a ha; rw [List.mem_singleton] at ha; subst ha; exact le_refl 0),
   C8_theorem.2.2.1 [statsZero]
      (by intro a ha; rw [List.mem_singleton] at ha; subst ha; exact le_refl 0),
   C8_theorem.2.2.2 [statsRun] statsZero (le_refl 0) (le_refl 0)⟩

/- ### Claim C9 — non-negative duration of the track-log decoder -/

/-- Claim C9 counterexample: two track points whose timestamps run backwards
(2000 ms then 1000 ms) give a computed duration of -1 seconds — the decoder
takes the raw last-minus-first delta, so the claimed unconditional
non-negativity fails on out-of-order logs. -/
theorem C9_counterexample :
    calculateDuration [⟨0, 0, 0, 2000, none⟩, ⟨0, 0, 0, 1000, none⟩] = -1 ∧
    ((-1 : ℚ) < 0) := by
  constructor
  · norm_num [calculateDuration]
  · norm_num

/-- Claim C9 (amended): the computed duration is zero for fewer than 2 points,
and is non-negative whenever the last point's timestamp is at least the
first's (in particular for every chronologically ordered track log). -/
theorem C9_theorem :
    (∀ points : List GpxPoint, points.length < 2 → calculateDuration points = 0) ∧
    (∀ (points : List GpxPoint) (t0 t1 : ℤ),
      points.head?.map (fun p => p.time) = some t0 →
      points.getLast?.map (fun p => p.time) = some t1 →
      t0 ≤ t1 → 0 ≤ calculateDuration points) := by
  constructor
  · intro pts h
    unfold calculateDuration
    rw [if_pos h]
  · intro pts t0 t1 h0 h1 hle
    unfold calculateDuration
    split_ifs with hlen
    · exact le_refl 0
    · rw [h0, h1]
      simp only [Option.getD_some]
      apply div_nonneg _ (by norm_num)
      exact_mod_cast sub_nonneg.mpr hle

/-- Claim C9 witness: the empty log has duration 0, and a two-point log with
increasing timestamps has non-negative duration. -/
theorem C9_witness :
    calculateDuration ([] : List GpxPoint) = 0 ∧
    0 ≤ calculateDuration [⟨0, 0, 0, 1000, none⟩, ⟨0, 0, 0, 2000, none⟩] :=
  ⟨C9_theorem.1 [] (by decide),
   C9_theorem.2 [⟨0, 0, 0, 1000, none⟩, ⟨0, 0, 0, 2000, none⟩] 1000 2000
     (by decide) (by decide) (by decide)⟩

/- ### Claim C10 — totality and closed tag set of the classifiers -/

/-- Claim C10: both workout classifiers are total over the fixed tag set
{intervals, tempo, long_run, easy, race, fartlek, hills, easy_strides,
general} — a set including "hills" and "easy_strides" — and neither ever
returns "recovery": text carrying a recovery marker is classified "easy". -/
theorem C10_theorem :
    (∀ a : StravaDetail,
      classifyWorkout a ∈ workoutTagSet ∧ classifyWorkout a ≠ "recovery") ∧
    (∀ b : StravaSummary,
      classifyWorkoutBasic b ∈ workoutTagSet ∧ classifyWorkoutBasic b ≠ "recovery") ∧
    classifyWorkout recoveryDetail = "easy" ∧
    classifyWorkoutBasic recoverySummary = "easy" := by
  refine ⟨fun a => ⟨classifyWorkout_mem a, ?_⟩,
    fun b => ⟨classifyWorkoutBasic_mem b, ?_⟩, ?_, ?_⟩
  · intro hc
    have := classifyWorkout_mem a
    rw [hc] at this
    simp [workoutTagSet] at this
  · intro hc
    have := classifyWorkoutBasic_mem b
    rw [hc] at this
    simp [workoutTagSet] at this
  · unfold classifyWorkout
    dsimp only
    rw [if_neg (by decide), if_neg (by decide), if_neg (by decide), if_pos (by decide)]
  · decide
